import Mathlib

/-!
Shallow embedding of the rrustv RISC-V emulator core (a single-hart RV64
instruction-set simulator with a memory-mapped device bus) and proofs about
it.  Machine integers are modelled as `Nat`/`Int` with explicit wrapping;
fallible operations return `Option`/`Except`.  Definitions mirror the Rust
source files `hart.rs`, `ins.rs`, `clint.rs`, `plic.rs`, `csr.rs`, `rom.rs`,
`ram.rs` and `virtio/blk.rs`.
-/

/-- Truncation to an unsigned 8-bit value (Rust `as u8`). -/
def u8 (n : Nat) : Nat := n % 256

/-- Truncation to an unsigned 16-bit value (Rust `as u16`). -/
def u16 (n : Nat) : Nat := n % 65536

/-- Truncation to an unsigned 32-bit value (Rust `as u32`). -/
def u32 (n : Nat) : Nat := n % 4294967296

/-- Truncation to an unsigned 64-bit value (Rust `as u64`). -/
def u64 (n : Nat) : Nat := n % 18446744073709551616

/-- Reinterpretation of an integer as a signed 8-bit value (Rust `as i8`). -/
def asI8 (i : Int) : Int := let r := i % 256; if r < 128 then r else r - 256

/-- Reinterpretation of an integer as a signed 16-bit value (Rust `as i16`). -/
def asI16 (i : Int) : Int := let r := i % 65536; if r < 32768 then r else r - 65536

/-- Reinterpretation of an integer as a signed 32-bit value (Rust `as i32`). -/
def asI32 (i : Int) : Int :=
  let r := i % 4294967296; if r < 2147483648 then r else r - 4294967296

/-- Reinterpretation of an integer as a signed 64-bit value (Rust `as i64`). -/
def asI64 (i : Int) : Int :=
  let r := i % 18446744073709551616
  if r < 9223372036854775808 then r else r - 18446744073709551616

/-- The unsigned 64-bit bit pattern of a signed value (Rust `as u64` of an
`i64`). -/
def wrap64 (i : Int) : Nat := (i % 18446744073709551616).toNat

/-- The unsigned 32-bit bit pattern of a signed value (Rust `as u32` of an
`i32`). -/
def wrap32 (i : Int) : Nat := (i % 4294967296).toNat

/-- Arithmetic (sign-preserving) right shift, as Rust `>>` on a signed
integer: floor division by a power of two. -/
def sar (i : Int) (k : Nat) : Int := Int.fdiv i (2 ^ k)

/-- Embeds `SignExtendable::sext` of hart.rs for a `u32` value: `u32 as i32 as i64
as u64`. -/
def sext32 (n : Nat) : Nat := wrap64 (asI32 (Int.ofNat n))

/-- Pointwise update of a map modelled as a function. -/
def upd (f : Nat → Nat) (k v : Nat) : Nat → Nat := fun x => if x = k then v else f x

deriving instance DecidableEq for Except

namespace Mem

/-!  Guest memory reached through the Bus.  The Bus routes each access to the
device covering the address; for the RAM-backed addresses used below the
semantics are those of ram.rs: little-endian byte-by-byte composition.  The
backing store is a total byte map (bounds faults are out of scope here). -/

/-- Embeds `Ram::read_byte` over a total byte map. -/
def read_byte (mem : Nat → Nat) (addr : Nat) : Nat := mem addr % 256

/-- Embeds `Ram::read_half`: two bytes, little-endian. -/
def read_half (mem : Nat → Nat) (addr : Nat) : Nat :=
  read_byte mem addr + (read_byte mem (addr + 1)) * 256

/-- Embeds `Ram::read_word`: four bytes, little-endian. -/
def read_word (mem : Nat → Nat) (addr : Nat) : Nat :=
  read_byte mem addr + (read_byte mem (addr + 1)) * 256 +
    (read_byte mem (addr + 2)) * 65536 + (read_byte mem (addr + 3)) * 16777216

/-- Embeds `Ram::read_double`: eight bytes, little-endian. -/
def read_double (mem : Nat → Nat) (addr : Nat) : Nat :=
  read_byte mem addr + (read_byte mem (addr + 1)) * 2 ^ 8 +
    (read_byte mem (addr + 2)) * 2 ^ 16 + (read_byte mem (addr + 3)) * 2 ^ 24 +
    (read_byte mem (addr + 4)) * 2 ^ 32 + (read_byte mem (addr + 5)) * 2 ^ 40 +
    (read_byte mem (addr + 6)) * 2 ^ 48 + (read_byte mem (addr + 7)) * 2 ^ 56

/-- Embeds `Ram::write_byte` over a total byte map. -/
def write_byte (mem : Nat → Nat) (addr v : Nat) : Nat → Nat :=
  fun a => if a = addr then v % 256 else mem a

/-- Embeds `Ram::write_word`: four byte stores, little-endian. -/
def write_word (mem : Nat → Nat) (addr val : Nat) : Nat → Nat :=
  let m0 := write_byte mem addr (val % 256)
  let m1 := write_byte m0 (addr + 1) ((val >>> 8) % 256)
  let m2 := write_byte m1 (addr + 2) ((val >>> 16) % 256)
  write_byte m2 (addr + 3) ((val >>> 24) % 256)

/-- Embeds `Ram::write_double`: eight byte stores, little-endian. -/
def write_double (mem : Nat → Nat) (addr val : Nat) : Nat → Nat :=
  let m0 := write_byte mem addr (val % 256)
  let m1 := write_byte m0 (addr + 1) ((val >>> 8) % 256)
  let m2 := write_byte m1 (addr + 2) ((val >>> 16) % 256)
  let m3 := write_byte m2 (addr + 3) ((val >>> 24) % 256)
  let m4 := write_byte m3 (addr + 4) ((val >>> 32) % 256)
  let m5 := write_byte m4 (addr + 5) ((val >>> 40) % 256)
  let m6 := write_byte m5 (addr + 6) ((val >>> 48) % 256)
  write_byte m6 (addr + 7) ((val >>> 56) % 256)

end Mem

namespace Clint

/-- Embeds `InterruptType` of clint.rs; the discriminant is the mip/mie bit index. -/
inductive InterruptType where
  | MEIP | SEIP | UEIP
  | MTIP | STIP | UTIP
  | MSIP | SSIP | USIP
deriving DecidableEq, Repr

/-- The numeric discriminant of `InterruptType` (`MEIP = 11`, …). -/
def InterruptType.toBit : InterruptType → Nat
  | .MEIP => 11
  | .SEIP => 9
  | .UEIP => 8
  | .MTIP => 7
  | .STIP => 5
  | .UTIP => 4
  | .MSIP => 3
  | .SSIP => 1
  | .USIP => 0

/-- Embeds `pending_interrupt` of clint.rs: tests `ip >> bit == 0b1` in the order
MEIP, SEIP, UEIP, MTIP, STIP, UTIP, MSIP, SSIP, USIP.  Note that the whole
shifted value is compared against 1, so a test succeeds exactly when its bit
is the highest set bit of `ip`. -/
def pending_interrupt (mip mie : Nat) : Option InterruptType :=
  let ip := mip &&& mie
  if ip >>> InterruptType.MEIP.toBit = 0b1 then some .MEIP
  else if ip >>> InterruptType.SEIP.toBit = 0b1 then some .SEIP
  else if ip >>> InterruptType.UEIP.toBit = 0b1 then some .UEIP
  else if ip >>> InterruptType.MTIP.toBit = 0b1 then some .MTIP
  else if ip >>> InterruptType.STIP.toBit = 0b1 then some .STIP
  else if ip >>> InterruptType.UTIP.toBit = 0b1 then some .UTIP
  else if ip >>> InterruptType.MSIP.toBit = 0b1 then some .MSIP
  else if ip >>> InterruptType.SSIP.toBit = 0b1 then some .SSIP
  else if ip >>> InterruptType.USIP.toBit = 0b1 then some .USIP
  else none

/-- The mcause encoding produced by `interrupt` of clint.rs for a selected
pending interrupt (interrupt flag in bit 63, cause code in the low bits). -/
def interruptCause : InterruptType → Nat
  | .MEIP => 0x800000000000000b
  | .SEIP => 0x8000000000000009
  | .UEIP => 0x8000000000000008
  | .MTIP => 0x8000000000000007
  | .STIP => 0x8000000000000005
  | .UTIP => 0x8000000000000004
  | .MSIP => 0x8000000000000003
  | .SSIP => 0x8000000000000001
  | .USIP => 0x8000000000000000

/-- The selection rule claimed by the specification, amended to the order
the code implements: scan the causes by descending bit index
(MEI, SEI, UEI, MTI, STI, UTI, MSI, SSI, USI) and pick the first whose
pending-and-enabled bit is set. -/
def prioritySelect (ip : Nat) : Option InterruptType :=
  [InterruptType.MEIP, .SEIP, .UEIP, .MTIP, .STIP, .UTIP, .MSIP, .SSIP,
    .USIP].find? (fun t => ip.testBit t.toBit)

/-- Mask of the nine mip/mie bit positions `pending_interrupt` inspects. -/
def definedBits : Nat := 0b101110111011

end Clint

namespace Plic

/-- Fault kinds surfaced by devices (irq.rs `Interrupt`), message payloads
elided. -/
inductive Interrupt where
  | MemoryFault (addr : Nat)
  | Unmapped (addr : Nat)
  | Unaligned (addr : Nat)
  | Halt
  | Unimplemented
deriving DecidableEq, Repr

/-- A PLIC interrupt source (plic.rs `Source`). -/
structure Source where
  priority : Nat
  interrupts : Nat
deriving DecidableEq, Repr

/-- A PLIC context (plic.rs `Context`); the per-context enable words are a
map from word index to 32-bit enable bitmap (`HashMap` with
`entry().or_default()` semantics, modelled as a total function). -/
structure Context where
  claimed : Bool
  threshold : Nat
  enabled : Nat → Nat

/-- The PLIC state: sources and contexts, both `HashMap`s with default
entries, modelled as total functions. -/
structure Plic where
  sources : Nat → Source
  contexts : Nat → Context

/-- Embeds `Plic::claim_interrupt`: mark the context claimed. -/
def claim_interrupt (p : Plic) (context : Nat) : Plic :=
  { p with
    contexts := fun c =>
      if c = context then { p.contexts c with claimed := true } else p.contexts c }

/-- Embeds `Plic::get_source_priority`. -/
def get_source_priority (p : Plic) (source : Nat) : Nat := (p.sources source).priority

/-- Embeds `Plic::get_source_enabled`: `x = bit_offset / 4 / 4` indexes the enable
word map. -/
def get_source_enabled (p : Plic) (context bit_offset : Nat) : Nat :=
  (p.contexts context).enabled (bit_offset / 4 / 4)

/-- Embeds `Plic::get_priority_threshold`. -/
def get_priority_threshold (p : Plic) (context : Nat) : Nat :=
  (p.contexts context).threshold

/-- Embeds `Plic::read_word` (Device impl): priorities, enables, thresholds and the
claim register.  A claim read (offset 4 within the 0x200000 region) marks
the context claimed and returns 0. -/
def read_word (p : Plic) (addr : Nat) : Except Interrupt (Nat × Plic) :=
  if addr ≤ 0x000FFC then
    let source := addr / 4
    .ok (get_source_priority p source, p)
  else if 0x002000 ≤ addr ∧ addr ≤ 0x1F1FFC then
    let base := addr - 0x002000
    let ctx := base / 0x80
    let bit_offset := ((base % 0x80) / 4) * 32
    .ok (get_source_enabled p ctx bit_offset, p)
  else if 0x200000 ≤ addr ∧ addr ≤ 0x3FFF000 ∧ addr &&& 0b111 = 0 then
    let base := addr - 0x200000
    let ctx := base / 0x1000
    .ok (get_priority_threshold p ctx, p)
  else if 0x200000 ≤ addr ∧ addr ≤ 0x3FFF000 ∧ addr &&& 0b111 = 0x4 then
    let base := addr - 0x200004
    let ctx := base / 0x1000
    .ok (0, claim_interrupt p ctx)
  else
    .error .Unimplemented

end Plic

namespace csr

/-!  The CSR file of csr.rs: 4096 64-bit slots plus a name table `CSR_MAP`
associating each known CSR number with its read and write handlers. -/

def NUM_CSRS : Nat := 4096

def MSTATUS : Nat := 0x300
def MISA : Nat := 0x301
def MEDELEG : Nat := 0x301
def MTVEC : Nat := 0x305
def MSCRATCH : Nat := 0x340
def MVENDORID : Nat := 0xF11
def MARCHID : Nat := 0xF12
def MIMPID : Nat := 0xF13
def MHARTID : Nat := 0xF14
def MCYCLE : Nat := 0xB00
def MINSTRET : Nat := 0xB02
def SATP : Nat := 0x180

/-- A read handler from `CSR_MAP`: `handle_nop`, `Csr::read_any` or
`Csr::read_mtvec`. -/
inductive CsrFn where
  | nop
  | read_any
  | read_mtvec
deriving DecidableEq, Repr

/-- A write handler from `CSR_MAP`: `handle_nop_wr` or `Csr::write_any`. -/
inductive CsrWrFn where
  | nop_wr
  | write_any
deriving DecidableEq, Repr

/-- The unprivileged-CSR rows of the `CSR_MAP` table of csr.rs. -/
def CSR_MAP_unpriv : List (Nat × CsrFn × CsrWrFn) :=
  [ (0x001, .nop, .nop_wr),
    (0x002, .nop, .nop_wr),
    (0x003, .nop, .nop_wr),
    (0xC00, .nop, .nop_wr),
    (0xC01, .nop, .nop_wr),
    (0xC02, .nop, .nop_wr),
    (0xC03, .nop, .nop_wr),
    (0xC04, .nop, .nop_wr),
    (0xC1F, .nop, .nop_wr),
    (0xC80, .nop, .nop_wr),
    (0xC81, .nop, .nop_wr),
    (0xC82, .nop, .nop_wr),
    (0xC83, .nop, .nop_wr),
    (0xC9F, .nop, .nop_wr) ]

/-- The supervisor-CSR rows of `CSR_MAP`. -/
def CSR_MAP_sup : List (Nat × CsrFn × CsrWrFn) :=
  [ (0x100, .nop, .nop_wr),
    (0x104, .nop, .nop_wr),
    (0x105, .nop, .nop_wr),
    (0x106, .nop, .nop_wr),
    (0x10A, .nop, .nop_wr),
    (0x140, .nop, .nop_wr),
    (0x141, .nop, .nop_wr),
    (0x142, .nop, .nop_wr),
    (0x143, .nop, .nop_wr),
    (0x144, .nop, .nop_wr),
    (SATP, .nop, .nop_wr),
    (0x5A8, .nop, .nop_wr) ]

/-- The hypervisor-CSR rows of `CSR_MAP`. -/
def CSR_MAP_hyp : List (Nat × CsrFn × CsrWrFn) :=
  [ (0x600, .nop, .nop_wr),
    (0x602, .nop, .nop_wr),
    (0x603, .nop, .nop_wr),
    (0x604, .nop, .nop_wr),
    (0x606, .nop, .nop_wr),
    (0x607, .nop, .nop_wr),
    (0x643, .nop, .nop_wr),
    (0x644, .nop, .nop_wr),
    (0x645, .nop, .nop_wr),
    (0x64A, .nop, .nop_wr),
    (0x6E12, .nop, .nop_wr),
    (0x60A, .nop, .nop_wr),
    (0x61A, .nop, .nop_wr),
    (0x680, .nop, .nop_wr),
    (0x6A8, .nop, .nop_wr),
    (0x605, .nop, .nop_wr),
    (0x615, .nop, .nop_wr),
    (0x200, .nop, .nop_wr),
    (0x204, .nop, .nop_wr),
    (0x205, .nop, .nop_wr),
    (0x240, .nop, .nop_wr),
    (0x241, .nop, .nop_wr),
    (0x242, .nop, .nop_wr),
    (0x243, .nop, .nop_wr),
    (0x244, .nop, .nop_wr),
    (0x280, .nop, .nop_wr) ]

/-- The machine-information and machine-trap rows of `CSR_MAP`. -/
def CSR_MAP_machine : List (Nat × CsrFn × CsrWrFn) :=
  [ (MVENDORID, .read_any, .write_any),
    (MARCHID, .read_any, .write_any),
    (MIMPID, .read_any, .write_any),
    (MHARTID, .read_any, .write_any),
    (0xF15, .read_any, .write_any),
    (MSTATUS, .read_any, .write_any),
    (MISA, .read_any, .write_any),
    (MEDELEG, .read_any, .write_any),
    (0x303, .read_any, .write_any),
    (0x304, .read_any, .write_any),
    (MTVEC, .read_mtvec, .write_any),
    (0x306, .read_any, .write_any),
    (0x310, .read_any, .write_any),
    (MSCRATCH, .read_any, .write_any),
    (0x341, .read_any, .write_any),
    (0x342, .read_any, .write_any),
    (0x343, .read_any, .write_any),
    (0x344, .read_any, .write_any),
    (0x34A, .read_any, .write_any),
    (0x34B, .read_any, .write_any),
    (0x30A, .read_any, .write_any),
    (0x31A, .read_any, .write_any),
    (0x347, .read_any, .write_any),
    (0x357, .read_any, .write_any) ]

/-- The machine-protection, counter, debug and trigger rows of `CSR_MAP`. -/
def CSR_MAP_mprot : List (Nat × CsrFn × CsrWrFn) :=
  [ (0x3A0, .read_any, .write_any),
    (0x3AF, .read_any, .write_any),
    (0x3EF, .read_any, .write_any),
    (MCYCLE, .read_any, .write_any),
    (MINSTRET, .read_any, .write_any),
    (0xB03, .read_any, .write_any),
    (0xB1F, .read_any, .write_any),
    (0xB80, .read_any, .write_any),
    (0xB82, .read_any, .write_any),
    (0xB82, .read_any, .write_any),
    (0xB9F, .read_any, .write_any),
    (0x320, .read_any, .write_any),
    (0x323, .read_any, .write_any),
    (0x33F, .read_any, .write_any),
    (0x7A0, .read_any, .write_any),
    (0x7A1, .read_any, .write_any),
    (0x7A2, .read_any, .write_any),
    (0x7A3, .read_any, .write_any),
    (0x7A4, .read_any, .write_any),
    (0x7B0, .read_any, .write_any),
    (0x7B1, .read_any, .write_any),
    (0x7B2, .read_any, .write_any),
    (0x7B3, .read_any, .write_any) ]

/-- The 99-entry `CSR_MAP` table of csr.rs (names elided; order preserved,
lookups take the first matching entry).  Written as the concatenation of its
sections. -/
def CSR_MAP : List (Nat × CsrFn × CsrWrFn) :=
  CSR_MAP_unpriv ++ CSR_MAP_sup ++ CSR_MAP_hyp ++ CSR_MAP_machine ++ CSR_MAP_mprot

/-- The CSR file: 4096 slots, modelled as a total map (all slots start 0). -/
structure Csr where
  csrs : Nat → Nat

/-- Embeds `Csr::new`: the construction-time constants, assigned in source order.
`MISA` and `MEDELEG` are both defined as 0x301 in csr.rs, so the later
`MEDELEG = 0` assignment overwrites the MISA encoding. -/
def Csr.new (id : Nat) : Csr :=
  let c0 : Nat → Nat := fun _ => 0
  let c1 := upd c0 MISA (0b01 <<< 30 ||| 1 <<< 8)
  let c2 := upd c1 MVENDORID 0
  let c3 := upd c2 MARCHID 0
  let c4 := upd c3 MIMPID 1
  let c5 := upd c4 MHARTID id
  let c6 := upd c5 MEDELEG 0
  let c7 := upd c6 MSTATUS 0
  let c8 := upd c7 MCYCLE 0
  let c9 := upd c8 MINSTRET 0
  { csrs := c9 }

/-- Embeds `Csr::read_mtvec`: WARL legalisation of mtvec. -/
def Csr.read_mtvec (c : Csr) (num : Nat) : Nat :=
  let val := c.csrs num
  let base := val >>> 2
  let mode := val &&& 0b11
  let mode := mode &&& 0b01
  let base := (base >>> 2) <<< 2
  (base <<< 2) ||| mode

/-- Embeds `Csr::read`: dispatch through the first matching `CSR_MAP` entry;
unknown CSRs read as 0. -/
def Csr.read (c : Csr) (num : Nat) : Nat :=
  match CSR_MAP.find? (fun e => e.1 = num) with
  | some (_, .nop, _) => 0
  | some (_, .read_any, _) => c.csrs num
  | some (_, .read_mtvec, _) => c.read_mtvec num
  | none => 0

/-- Embeds `Csr::write`: dispatch through the first matching `CSR_MAP` entry;
unknown CSR writes are ignored. -/
def Csr.write (c : Csr) (num val : Nat) : Csr :=
  match CSR_MAP.find? (fun e => e.1 = num) with
  | some (_, _, .nop_wr) => c
  | some (_, _, .write_any) => { csrs := upd c.csrs num val }
  | none => c

end csr

namespace Rom

/-- Fetch a byte of the backing vector, `MemoryFault(addr)` when out of
bounds (`data.get(i).ok_or(MemoryFault(addr))`). -/
def getB (data : List Nat) (i addr : Nat) : Except Nat Nat :=
  match data.get? i with
  | some b => .ok b
  | none => .error addr

/-- Embeds `Rom::read_byte`. -/
def read_byte (data : List Nat) (addr : Nat) : Except Nat Nat := getB data addr addr

/-- Embeds `Rom::read_half`. -/
def read_half (data : List Nat) (addr : Nat) : Except Nat Nat := do
  let b0 ← getB data addr addr
  let b1 ← getB data (addr + 1) addr
  .ok (b0 + (b1 <<< 8))

/-- Embeds `Rom::read_word`. -/
def read_word (data : List Nat) (addr : Nat) : Except Nat Nat := do
  let b0 ← getB data addr addr
  let b1 ← getB data (addr + 1) addr
  let b2 ← getB data (addr + 2) addr
  let b3 ← getB data (addr + 3) addr
  .ok (b0 + (b1 <<< 8) + (b2 <<< 16) + (b3 <<< 24))

/-- Embeds `Rom::read_double` of rom.rs, byte accesses exactly as written there:
the four upper byte lanes all reload `data[addr + 3]`. -/
def read_double (data : List Nat) (addr : Nat) : Except Nat Nat := do
  let b0 ← getB data addr addr
  let b1 ← getB data (addr + 1) addr
  let b2 ← getB data (addr + 2) addr
  let b3 ← getB data (addr + 3) addr
  let b4 ← getB data (addr + 3) addr
  let b5 ← getB data (addr + 3) addr
  let b6 ← getB data (addr + 3) addr
  let b7 ← getB data (addr + 3) addr
  .ok (b0 + (b1 <<< 8) + (b2 <<< 16) + (b3 <<< 24) + (b4 <<< 32) +
    (b5 <<< 40) + (b6 <<< 48) + (b7 <<< 56))

end Rom

namespace Ram

/-- Embeds `Ram::read_double` of ram.rs over the backing byte vector: the eight
bytes at `addr..addr+7`, little-endian, each bounds-checked. -/
def read_double (data : List Nat) (addr : Nat) : Except Nat Nat := do
  let b0 ← Rom.getB data addr addr
  let b1 ← Rom.getB data (addr + 1) addr
  let b2 ← Rom.getB data (addr + 2) addr
  let b3 ← Rom.getB data (addr + 3) addr
  let b4 ← Rom.getB data (addr + 4) addr
  let b5 ← Rom.getB data (addr + 5) addr
  let b6 ← Rom.getB data (addr + 6) addr
  let b7 ← Rom.getB data (addr + 7) addr
  .ok (b0 + (b1 <<< 8) + (b2 <<< 16) + (b3 <<< 24) + (b4 <<< 32) +
    (b5 <<< 40) + (b6 <<< 48) + (b7 <<< 56))

/-- Embeds `Ram::read_word` of ram.rs. -/
def read_word (data : List Nat) (addr : Nat) : Except Nat Nat := do
  let b0 ← Rom.getB data addr addr
  let b1 ← Rom.getB data (addr + 1) addr
  let b2 ← Rom.getB data (addr + 2) addr
  let b3 ← Rom.getB data (addr + 3) addr
  .ok (b0 + (b1 <<< 8) + (b2 <<< 16) + (b3 <<< 24))

end Ram

namespace Hart

/-- Embeds `Hart::set_register`: writes to x0 are silently dropped, registers 1–31
are stored, anything else panics (modelled as `none`). -/
def set_register (registers : List Nat) (reg val : Nat) : Option (List Nat) :=
  if reg = 0 then some registers
  else if 1 ≤ reg ∧ reg ≤ 31 then some (registers.set reg val)
  else none

/-- Embeds `Hart::get_register`: registers 0–31 read the register file, anything
else panics (modelled as `none`). -/
def get_register (registers : List Nat) (reg : Nat) : Option Nat :=
  if reg ≤ 31 then registers.get? reg else none

/-- A sequence of `set_register` calls (instruction write-backs, SBI and
debug writes), applied in order. -/
def apply_writes (registers : List Nat) : List (Nat × Nat) → Option (List Nat)
  | [] => some registers
  | (r, v) :: ws =>
    match set_register registers r v with
    | some regs => apply_writes regs ws
    | none => none

end Hart

namespace Ins

/-- The decoded instruction record of ins.rs (`InstructionFormat`): a tagged
variant over the six RISC-V formats with sign-extended immediates. -/
inductive InstructionFormat where
  | R (opcode rd funct3 rs1 rs2 funct7 : Nat)
  | I (opcode rd funct3 rs1 : Nat) (imm : Int)
  | S (opcode funct3 rs1 rs2 : Nat) (imm : Int)
  | B (opcode funct3 rs1 rs2 : Nat) (imm : Int)
  | U (opcode rd : Nat) (imm : Int)
  | J (opcode rd : Nat) (imm : Int)
deriving DecidableEq, Repr

/-- A fetched parcel (`Instruction` of ins.rs): a 32-bit word or a 16-bit
compressed parcel. -/
inductive Instruction where
  | IRV32 (w : Nat)
  | CRV32 (h : Nat)
deriving DecidableEq, Repr

/-- Embeds `Instruction::size`. -/
def Instruction.size : Instruction → Nat
  | .IRV32 _ => 4
  | .CRV32 _ => 2

/-- Decoding error (`Fault::InstructionDecodingError`). -/
inductive DecErr where
  | InstructionDecodingError
deriving DecidableEq, Repr

/-- Embeds `Instruction::decode_32` of ins.rs. -/
def decode_32 (instruction : Nat) : Except DecErr InstructionFormat :=
  let opcode := instruction &&& 0b1111111
  if opcode = 0b0110011 ∨ opcode = 0b0101111 then
    let rd := (instruction >>> 7) &&& 0b11111
    let funct3 := (instruction >>> 12) &&& 0b111
    let rs1 := (instruction >>> 15) &&& 0b11111
    let rs2 := (instruction >>> 20) &&& 0b11111
    let funct7 := u8 (instruction >>> 25)
    .ok (.R opcode rd funct3 rs1 rs2 funct7)
  else if opcode = 0b0010011 ∨ opcode = 0b0000011 ∨ opcode = 0b1100111 ∨
      opcode = 0b1110011 ∨ opcode = 0b0001111 then
    let rd := (instruction &&& 0x0F80) >>> 7
    let funct3 := (instruction &&& 0x7000) >>> 12
    let rs1 := (instruction &&& 0xF8000) >>> 15
    let imm := asI16 (sar (asI32 instruction) 20)
    .ok (.I opcode rd funct3 rs1 imm)
  else if opcode = 0b0100011 then
    let funct3 := (instruction >>> 12) &&& 0b111
    let rs1 := (instruction >>> 15) &&& 0b11111
    let rs2 := (instruction >>> 20) &&& 0b11111
    let imm7 := (instruction >>> 7) &&& 0b11111
    let imm25 := instruction &&& 0xfe000000
    let imm := asI16 (Int.ofNat (wrap64 (asI32 (Int.ofNat (imm25 + (imm7 <<< 20)))) >>> 20))
    .ok (.S opcode funct3 rs1 rs2 imm)
  else if opcode = 0b1100011 then
    let funct3 := (instruction >>> 12) &&& 0b111
    let rs1 := (instruction >>> 15) &&& 0b11111
    let rs2 := (instruction >>> 20) &&& 0b11111
    let immb := ((instruction &&& 0x80000000) >>> 19) |||
      ((instruction &&& 0x7e000000) >>> 20) |||
      ((instruction &&& 0x00000f00) >>> 7) |||
      ((instruction &&& 0x00000080) <<< 4)
    let imm := asI16 (sar (asI32 (u32 (immb <<< 19))) 19)
    .ok (.B opcode funct3 rs1 rs2 imm)
  else if opcode = 0b1101111 then
    let rd := (instruction &&& 0x0F80) >>> 7
    let immj := ((instruction &&& 0x80000000) >>> 11) |||
      ((instruction &&& 0x7fe00000) >>> 20) |||
      ((instruction &&& 0x00100000) >>> 9) |||
      (instruction &&& 0x000ff000)
    let imm := sar (asI32 (u32 (immj <<< 11))) 11
    .ok (.J opcode rd imm)
  else if opcode = 0b0110111 ∨ opcode = 0b0010111 then
    let rd := (instruction >>> 7) &&& 0x1F
    let imm := asI32 (Int.ofNat (wrap64 (asI32 (Int.ofNat (instruction &&& 0xfffff800))) >>> 12))
    .ok (.U opcode rd imm)
  else
    .error .InstructionDecodingError

/-- Outcome of `Instruction::decode_16`: a decoded record, a decoding error,
or the `panic!` branch reached when the parcel's low two bits are 0b11. -/
inductive Decode16Result where
  | ok (fmt : InstructionFormat)
  | decodingError
  | panicked
deriving DecidableEq, Repr

/-- Embeds `Instruction::decode_16` of ins.rs: the RVC expansion into 32-bit-format
records.  `RVC_REG_OFFSET = 8`. -/
def decode_16 (instruction : Nat) : Decode16Result :=
  let op := instruction &&& 0b11
  if op = 0b00 then
    -- quadrant C0
    let funct3 := instruction >>> 13
    match funct3 with
    | 0b010 =>
      -- c.lw
      let rd := (instruction >>> 2) &&& 0b111
      let rs1 := (instruction >>> 7) &&& 0b111
      let imm := ((u8 (instruction >>> 6) &&& 0b1) <<< 3) |||
        ((u8 (instruction >>> 5) &&& 0b1) <<< 7) |||
        ((u8 (instruction >>> 10) &&& 0b111) <<< 4)
      let imm := imm >>> 1
      .ok (.I 0b0000011 (rd + 8) 0x2 (rs1 + 8) (Int.ofNat imm))
    | 0b110 =>
      -- c.sw
      let rs1 := (instruction >>> 7) &&& 0b111
      let rs2 := (instruction >>> 2) &&& 0b111
      let imm := ((u8 (instruction >>> 6) &&& 0b1) <<< 3) |||
        ((u8 (instruction >>> 5) &&& 0b1) <<< 7) |||
        ((u8 (instruction >>> 10) &&& 0b111) <<< 4)
      let imm := imm >>> 1
      .ok (.S 0b0100011 0x2 (rs1 + 8) (rs2 + 8) (Int.ofNat imm))
    | 0b000 =>
      -- c.addi4spn
      let rd := (instruction >>> 2) &&& 0b111
      let imm := ((u8 (instruction >>> 7) &&& 0b1111) <<< 4) |||
        ((u8 (instruction >>> 11) &&& 0b11) <<< 2) |||
        ((u8 (instruction >>> 5) &&& 0b1) <<< 1) |||
        (u8 (instruction >>> 6) &&& 0b1)
      .ok (.I 0b0010011 (rd + 8) 0x0 0x02 (asI16 (Int.ofNat (u16 (imm * 4)))))
    | _ => .decodingError
  else if op = 0b01 then
    -- quadrant C1
    let funct3 := instruction >>> 13
    match funct3 with
    | 0b000 =>
      -- c.nop / c.addi
      let rd := (instruction >>> 7) &&& 0b11111
      let imm := ((u8 ((instruction >>> 2) &&& 0b11111)) <<< 2) |||
        ((u8 ((instruction >>> 12) &&& 0b1)) <<< 7)
      let imm := sar (asI8 (Int.ofNat imm)) 2
      .ok (.I 0b0010011 rd 0 rd (asI16 imm))
    | 0b010 =>
      -- c.li
      let rd := (instruction >>> 7) &&& 0b11111
      let imm := ((u8 (instruction >>> 12) &&& 0b1) <<< 7) |||
        ((u8 (instruction >>> 2) &&& 0b11111) <<< 2)
      let imm := sar (asI8 (Int.ofNat imm)) 2
      .ok (.I 0b0010011 rd 0x0 0x00 (asI16 imm))
    | 0b011 =>
      let rd := (instruction >>> 7) &&& 0b11111
      if rd = 0x2 then
        -- c.addi16sp
        let imm := ((u8 (instruction >>> 12) &&& 0b1) <<< 7) |||
          ((u8 (instruction >>> 6) &&& 0b1) <<< 2) |||
          ((u8 (instruction >>> 5) &&& 0b1) <<< 4) |||
          ((u8 (instruction >>> 3) &&& 0b11) <<< 5) |||
          ((u8 (instruction >>> 2) &&& 0b1) <<< 3)
        let imm := asI16 (asI8 (Int.ofNat imm)) * 4
        .ok (.I 0b0010011 rd 0x0 0x2 imm)
      else
        -- c.lui
        let imm := ((u8 (instruction >>> 12) &&& 0b1) <<< 7) |||
          ((u8 (instruction >>> 2) &&& 0b11111) <<< 2)
        let imm := sar (asI8 (Int.ofNat imm)) 2
        .ok (.U 0b0110111 rd (asI32 imm))
    | 0b100 =>
      let funct2 := (instruction >>> 10) &&& 0b11
      let rd := u8 (instruction >>> 7) &&& 0b111
      let imm := (u8 (instruction >>> 5) &&& 0b10000000) |||
        (u8 instruction &&& 0b1111100)
      let immi := asI16 (sar (asI8 (Int.ofNat imm)) 2)
      match funct2 with
      | 0b00 =>
        -- c.srli
        .ok (.I 0b0010011 (rd + 8) 0x5 (rd + 8) immi)
      | 0b01 =>
        -- c.srai
        let imm := (u8 (instruction >>> 5) &&& 0b10000000) |||
          (u8 instruction &&& 0b1111100)
        let imm := ((imm >>> 2) &&& 0b0000000000011111) ||| (0x20 <<< 5)
        .ok (.I 0b0010011 (rd + 8) 0x5 (rd + 8) (Int.ofNat imm))
      | 0b10 =>
        -- c.andi
        .ok (.I 0b0010011 (rd + 8) 0x7 (rd + 8) immi)
      | _ =>
        -- c.and / c.or / c.xor / c.sub
        let funct6 := u8 (instruction >>> 10) &&& 0b111111
        let funct2 := u8 (instruction >>> 5) &&& 0b11
        let rd := u8 (instruction >>> 7) &&& 0b111
        let rs2 := u8 (instruction >>> 2) &&& 0b111
        if funct6 = 0b100011 ∧ funct2 = 0b11 then
          .ok (.R 0b0110011 (rd + 8) 0x7 (rd + 8) (rs2 + 8) 0x00)
        else if funct6 = 0b100011 ∧ funct2 = 0b10 then
          .ok (.R 0b0110011 (rd + 8) 0x6 (rd + 8) (rs2 + 8) 0x00)
        else if funct6 = 0b100011 ∧ funct2 = 0b01 then
          .ok (.R 0b0110011 (rd + 8) 0x4 (rd + 8) (rs2 + 8) 0x00)
        else if funct6 = 0b100011 ∧ funct2 = 0b00 then
          .ok (.R 0b0110011 (rd + 8) 0x0 (rd + 8) (rs2 + 8) 0x20)
        else
          .decodingError
    | 0b101 =>
      -- c.j
      let imm := (((instruction >>> 12) &&& 0b1) <<< 15) |||
        (((instruction >>> 11) &&& 0b1) <<< 8) |||
        (((instruction >>> 9) &&& 0b11) <<< 12) |||
        (((instruction >>> 8) &&& 0b1) <<< 14) |||
        (((instruction >>> 7) &&& 0b1) <<< 10) |||
        (((instruction >>> 6) &&& 0b1) <<< 11) |||
        (((instruction >>> 3) &&& 0b111) <<< 5) |||
        (((instruction >>> 2) &&& 0b1) <<< 9)
      let imm := sar (asI16 (Int.ofNat imm)) 5
      .ok (.J 0b1101111 0x0 (2 * imm))
    | 0b001 =>
      -- c.jal
      let imm := (((instruction >>> 12) &&& 0b1) <<< 15) |||
        (((instruction >>> 11) &&& 0b1) <<< 8) |||
        (((instruction >>> 9) &&& 0b11) <<< 12) |||
        (((instruction >>> 8) &&& 0b1) <<< 14) |||
        (((instruction >>> 7) &&& 0b1) <<< 10) |||
        (((instruction >>> 6) &&& 0b1) <<< 11) |||
        (((instruction >>> 3) &&& 0b111) <<< 5) |||
        (((instruction >>> 2) &&& 0b1) <<< 9)
      let imm := sar (asI16 (Int.ofNat imm)) 5
      .ok (.J 0b1101111 0x1 (2 * imm))
    | 0b110 =>
      -- c.beqz
      let rs1 := u8 (instruction >>> 7) &&& 0b111
      let imm := ((u8 (instruction >>> 12) &&& 0b1) <<< 7) |||
        ((u8 (instruction >>> 10) &&& 0b11) <<< 2) |||
        ((u8 (instruction >>> 5) &&& 0b11) <<< 5) |||
        (u8 (instruction >>> 3) &&& 0b11) |||
        ((u8 (instruction >>> 2) &&& 0b1) <<< 4)
      let imm := asI16 (asI8 (Int.ofNat imm)) * 2
      .ok (.B 0b1100011 0x0 (rs1 + 8) 0x0 imm)
    | 0b111 =>
      -- c.bnez
      let rs1 := u8 (instruction >>> 7) &&& 0b111
      let imm := ((u8 (instruction >>> 12) &&& 0b1) <<< 7) |||
        ((u8 (instruction >>> 10) &&& 0b11) <<< 2) |||
        ((u8 (instruction >>> 5) &&& 0b11) <<< 5) |||
        (u8 (instruction >>> 3) &&& 0b11) |||
        ((u8 (instruction >>> 2) &&& 0b1) <<< 4)
      let imm := asI16 (asI8 (Int.ofNat imm)) * 2
      .ok (.B 0b1100011 0x1 (rs1 + 8) 0x0 imm)
    | _ => .decodingError
  else if op = 0b10 then
    -- quadrant C2
    let funct4 := instruction >>> 12
    let rs1 := (instruction >>> 7) &&& 0b11111
    let rs2 := (instruction >>> 2) &&& 0b11111
    match funct4 with
    | 0b0000 | 0b0001 =>
      -- c.slli
      let imm := (u8 (instruction >>> 5) &&& 0b10000000) |||
        (u8 instruction &&& 0b1111100)
      let imm := asI16 (sar (asI8 (Int.ofNat imm)) 2)
      .ok (.I 0b0010011 rs1 0x1 rs1 imm)
    | 0b1000 =>
      -- c.jr / c.mv
      if rs1 ≠ 0 ∧ rs2 = 0 then
        .ok (.I 0b1100111 0x0 0x0 rs1 0)
      else
        .ok (.I 0b0010011 rs1 0x0 rs2 0)
    | 0b1001 =>
      -- c.jalr / c.ebreak / c.add
      if rs1 ≠ 0 ∧ rs2 = 0 then
        .ok (.I 0b1100111 0x1 0x0 rs1 0)
      else if rs1 = 0 ∧ rs2 = 0 then
        .ok (.I 0b1110011 0 0x0 0 0x1)
      else
        .ok (.R 0b0110011 rs1 0x0 rs1 rs2 0x0)
    | 0b0100 | 0b0101 =>
      -- c.lwsp
      let rs1 := (instruction >>> 7) &&& 0b11111
      let imm := ((u8 (instruction >>> 2) &&& 0b11) <<< 6) |||
        ((u8 (instruction >>> 12) &&& 0b1) <<< 5) |||
        ((u8 (instruction >>> 4) &&& 0b111) <<< 2)
      .ok (.I 0b0000011 rs1 0x2 0x2 (Int.ofNat imm))
    | 0b1100 | 0b1101 =>
      -- c.swsp
      let imm := ((u8 (instruction >>> 9) &&& 0b1111) <<< 2) |||
        ((u8 (instruction >>> 7) &&& 0b11) <<< 6)
      .ok (.S 0b0100011 0x2 0x2 rs2 (Int.ofNat imm))
    | _ => .decodingError
  else
    -- `panic!("Instruction should be type C")`
    .panicked

/-- Outcome of `Instruction::decode`: decoded record, `IllegalOpcode` fault,
or a propagated panic from `decode_16`. -/
inductive DecodeOutcome where
  | ok (ins : Instruction) (fmt : InstructionFormat)
  | illegalOpcode (ins : Instruction)
  | panicked
deriving DecidableEq, Repr

/-- Embeds `Instruction::decode`: dispatch on the parcel width; every decoding
error is mapped to `IllegalOpcode(self)`. -/
def Instruction.decode : Instruction → DecodeOutcome
  | .IRV32 w =>
    match decode_32 w with
    | .ok fmt => .ok (.IRV32 w) fmt
    | .error _ => .illegalOpcode (.IRV32 w)
  | .CRV32 h =>
    match decode_16 h with
    | .ok fmt => .ok (.CRV32 h) fmt
    | .decodingError => .illegalOpcode (.CRV32 h)
    | .panicked => .panicked

end Ins

namespace Hart

/-- Embeds `Hart::fetch_instruction` over RAM-backed memory: read a word at PC; if
its low two bits are 0b11 it is a 32-bit parcel (PC advances by 4),
otherwise re-read a halfword and treat it as compressed (PC advances by 2).
Returns the parcel and the updated PC. -/
def fetch_instruction (mem : Nat → Nat) (pc : Nat) : Ins.Instruction × Nat :=
  let ins := Mem.read_word mem pc
  if ins &&& 0b11 = 0b11 then
    (.IRV32 ins, pc + 4)
  else
    (.CRV32 (Mem.read_half mem pc), pc + 2)

/-- The `jalr` arm of `Hart::execute_instruction`: compute the target from
rs1 + imm, mask it with `0xFFFF_FFFE`, write the (already advanced) PC to
rd, then set PC to the target.  Returns the register file and the new PC. -/
def execute_jalr (registers : List Nat) (pc : Nat) (rd rs1 : Nat) (imm : Int) :
    Option (List Nat × Nat) := do
  let rs1val ← get_register registers rs1
  let target := u64 (rs1val + wrap64 imm)
  let target := target &&& 0xFFFFFFFE
  let registers ← set_register registers rd pc
  some (registers, target)

/-- The `.W` atomics arm of `Hart::execute_instruction` (opcode 0b0101111,
funct3 0x2): load the old word, compute the new value per funct5, write the
sign-extended old value to rd and store the new value.  The `amoswap.w` arm
additionally writes the old rd value into the rs2 register, exactly as the
source does. -/
def execute_amo_w (registers : List Nat) (mem : Nat → Nat)
    (funct5 rd rs1 rs2 : Nat) : Option (List Nat × (Nat → Nat)) := do
  let addr ← get_register registers rs1
  let val := Mem.read_word mem addr
  let rs2v ← get_register registers rs2
  let rs2val := rs2v &&& 0xFFFFFFFF
  let (registers, new) ←
    if funct5 = 0x01 then do
      -- amoswap.w
      let rdval ← get_register registers rd
      let registers ← set_register registers rs2 rdval
      some (registers, rs2val)
    else if funct5 = 0x00 then
      -- amoadd.w
      some (registers, u32 (val + rs2val))
    else if funct5 = 0x0C then
      -- amoand.w
      some (registers, val &&& rs2val)
    else if funct5 = 0x08 then
      -- amoor.w
      some (registers, val ||| rs2val)
    else if funct5 = 0x04 then
      -- amoxor.w
      some (registers, val ^^^ rs2val)
    else if funct5 = 0x14 then
      -- amomax.w
      some (registers, wrap32 (max (asI32 val) (asI32 rs2val)))
    else if funct5 = 0x10 then
      -- amomin.w
      some (registers, wrap32 (min (asI32 val) (asI32 rs2val)))
    else if funct5 = 0x1C then
      -- amomaxu.w
      some (registers, max val rs2val)
    else if funct5 = 0x18 then
      -- amominu.w
      some (registers, min val rs2val)
    else
      none
  let registers ← set_register registers rd (sext32 val)
  some (registers, Mem.write_word mem addr new)

/-- The `.D` atomics arm of `Hart::execute_instruction` (opcode 0b0101111,
funct3 0x3), double-word variant of `execute_amo_w`. -/
def execute_amo_d (registers : List Nat) (mem : Nat → Nat)
    (funct5 rd rs1 rs2 : Nat) : Option (List Nat × (Nat → Nat)) := do
  let addr ← get_register registers rs1
  let val := Mem.read_double mem addr
  let rs2val ← get_register registers rs2
  let (registers, new) ←
    if funct5 = 0x01 then do
      -- amoswap.d
      let rdval ← get_register registers rd
      let registers ← set_register registers rs2 rdval
      some (registers, rs2val)
    else if funct5 = 0x00 then
      some (registers, u64 (val + rs2val))
    else if funct5 = 0x0C then
      some (registers, val &&& rs2val)
    else if funct5 = 0x08 then
      some (registers, val ||| rs2val)
    else if funct5 = 0x04 then
      some (registers, val ^^^ rs2val)
    else if funct5 = 0x14 then
      some (registers, wrap64 (max (asI64 val) (asI64 rs2val)))
    else if funct5 = 0x10 then
      some (registers, wrap64 (min (asI64 val) (asI64 rs2val)))
    else if funct5 = 0x1C then
      some (registers, max val rs2val)
    else if funct5 = 0x18 then
      some (registers, min val rs2val)
    else
      none
  let registers ← set_register registers rd val
  some (registers, Mem.write_double mem addr new)

end Hart

namespace virtio

/-- Per-virtqueue state (`Queue` of virtio/mod.rs). -/
structure Queue where
  ready : Bool
  size : Nat
  desc : Nat
  driver : Nat
  device : Nat
deriving DecidableEq, Repr

/-- A virtqueue descriptor (`VirtqDesc` of virtio/mod.rs). -/
structure VirtqDesc where
  addr : Nat
  len : Nat
  flags : Nat
  next : Nat
deriving DecidableEq, Repr

/-- Embeds `VirtqDesc` flag constants. -/
def VirtqDesc.NEXT : Nat := 1
def VirtqDesc.WRITE : Nat := 2
def VirtqDesc.INDIRECT : Nat := 4

namespace BlkDevice

/-- Embeds `BlkDevice::get_desc`: read a descriptor from the queue's descriptor
area via the Bus. -/
def get_desc (mem : Nat → Nat) (queue : Queue) (desc_idx : Nat) : VirtqDesc :=
  let addr := queue.desc + 16 * desc_idx
  { addr := Mem.read_double mem addr
    len := Mem.read_word mem (addr + 8)
    flags := Mem.read_half mem (addr + 12)
    next := Mem.read_half mem (addr + 14) }

/-- The byte-copy loop of the `RequestType::In` arm of
`BlkDevice::recv_request`: the `len` bytes read from the backing file at
`fileOff` are written one by one to guest memory at `dst` via
`Bus::write_byte`. -/
def write_space (mem disk : Nat → Nat) (fileOff dst : Nat) : Nat → (Nat → Nat)
  | 0 => mem
  | n + 1 => Mem.write_byte (write_space mem disk fileOff dst n) (dst + n) (disk (fileOff + n))

/-- Embeds `BlkDevice::recv_request`: parse the request header, serve an IN request
by copying from the backing file into the guest buffer, then look up
`get_desc(queue, hdr_desc.next)` once more as the "status" descriptor and
read (only read) its byte for logging.  An unknown request type makes the
`unwrap` panic (`none`).  Returns the updated guest memory. -/
def recv_request (mem disk : Nat → Nat) (queue : Queue) (head_idx : Nat) :
    Option (Nat → Nat) :=
  let hdr_desc := get_desc mem queue head_idx
  let typ := Mem.read_word mem hdr_desc.addr
  if typ = 0 ∨ typ = 1 then
    -- _ioprio := read_word (hdr_desc.addr + 4): read only, no state change
    let sector_num := Mem.read_double mem (hdr_desc.addr + 8)
    let buf_desc := get_desc mem queue hdr_desc.next
    let mem' :=
      if typ = 0 then
        -- RequestType::In: `file.read_exact_at(space, sector * 512)` then
        -- write each byte to `buf_desc.addr + i`
        write_space mem disk (sector_num * 512) buf_desc.addr buf_desc.len
      else
        -- RequestType::Out: only logged
        mem
    let status_desc := get_desc mem' queue hdr_desc.next
    -- status := read_byte(status_desc.addr): read only, logged
    let _ := Mem.read_byte mem' status_desc.addr
    some mem'
  else
    none

/-- The request-processing loop of the `QueueNotify` arm of
`BlkDevice::write_word`: process avail-ring entries from `current_idx` until
it equals `avail_idx` (fuel bounds the iteration count; the Rust loop runs
exactly `avail_idx` times starting from 0). -/
def notify_loop (disk : Nat → Nat) (queue : Queue) (avail_idx : Nat) :
    Nat → Nat → (Nat → Nat) → Option (Nat → Nat)
  | fuel, current_idx, mem =>
    if current_idx = avail_idx then some mem
    else
      match fuel with
      | 0 => none
      | fuel + 1 =>
        let head_idx :=
          Mem.read_half mem (queue.driver + 4 + (current_idx &&& (queue.size - 1)) * 2)
        match recv_request mem disk queue head_idx with
        | some mem' => notify_loop disk queue avail_idx fuel (current_idx + 1) mem'
        | none => none

/-- The state-changing core of the `QueueNotify` arm of
`BlkDevice::write_word`: read the avail ring's `idx` and process every chain
up to it.  (The descriptor walk and the avail/used dumps the arm performs
first are reads used only for logging and change no state.) -/
def queue_notify (mem disk : Nat → Nat) (queue : Queue) : Option (Nat → Nat) :=
  let avail_idx := Mem.read_half mem (queue.driver + 2)
  notify_loop disk queue avail_idx avail_idx 0 mem

end BlkDevice

end virtio

/-- A finite byte map as a total function (absent addresses read 0). -/
def assocMem (l : List (Nat × Nat)) : Nat → Nat :=
  fun a => (((l.find? (fun e => e.1 = a)).map (fun e => e.2)).getD 0)

/-- The virtqueue of the C5 scenario: size 8, descriptor table at 0x100,
avail (driver) ring at 0x200, used (device) ring at 0x300. -/
def blkQueue : virtio.Queue :=
  { ready := true, size := 8, desc := 0x100, driver := 0x200, device := 0x300 }

/-- Guest memory for the C5 scenario: a three-descriptor chain (header at
0x400: IN, sector 0; data buffer at 0x500, len 5, WRITE|NEXT; status byte at
0x600, len 1, WRITE), avail ring with idx 1 and ring[0] = 0, used ring all
zero, and the status byte initialised to 0x55. -/
def blkMem0 : Nat → Nat :=
  assocMem
    [ (0x101, 0x04),
      (0x108, 16), (0x10C, 1), (0x10E, 1),
      (0x111, 0x05),
      (0x118, 5), (0x11C, 3), (0x11E, 2),
      (0x121, 0x06),
      (0x128, 1), (0x12C, 2),
      (0x202, 1),
      (0x600, 0x55) ]

/-- The backing disk image of the C5 scenario: sector 0 begins "Hello". -/
def blkDisk : Nat → Nat :=
  assocMem [(0, 0x48), (1, 0x65), (2, 0x6C), (3, 0x6C), (4, 0x6F)]

/-- PLIC state for the C4 counterexample: source 1 pending with priority 7,
every context at threshold 0 with source 1 enabled, nothing claimed. -/
def plic0 : Plic.Plic :=
  { sources := fun s =>
      if s = 1 then { priority := 7, interrupts := 1 } else { priority := 0, interrupts := 0 }
    contexts := fun _ => { claimed := false, threshold := 0, enabled := fun _ => 2 } }

/-- Register file for the C6 counterexample: x5 = 0xBB, x6 = 0x100 (the
memory operand address), x7 = 0xAA. -/
def amoRegs : List Nat := (((List.replicate 32 0).set 5 0xBB).set 6 0x100).set 7 0xAA

/-- Word-memory for the C6 counterexample: the word at 0x100 is 0xCC. -/
def amoMem : Nat → Nat := assocMem [(0x100, 0xCC)]

/-- Register file for the C2 evaluation: x6 holds 2^32. -/
def jalrRegs : List Nat := (List.replicate 32 0).set 6 0x100000000

/-- Bit-masking with 0b11 is reduction modulo 4. -/
theorem land_three (x : Nat) : x &&& 3 = x % 4 := by
  simpa using Nat.and_pow_two_sub_one_eq_mod x 2

/-- Bit-masking with 0b111 is reduction modulo 8. -/
theorem land_seven (x : Nat) : x &&& 7 = x % 8 := by
  simpa using Nat.and_pow_two_sub_one_eq_mod x 3

/-- Claim C1: the all-zero parcel decodes successfully.  Fetching the word
0x00000000 selects the compressed path (low bits 00) and `decode_16`
accepts the 0x0000 parcel as C.ADDI4SPN with nzuimm = 0, expanding it to
`addi x8, x2, 0` instead of reporting an illegal instruction; the
illegal-instruction trap entry the claim requires therefore never happens
(and no code in hart.rs writes MEPC or MCAUSE at all). -/
theorem decode16_zero_parcel_accepted :
    Hart.fetch_instruction (fun _ => 0) 0x80 = (.CRV32 0, 0x82) ∧
      Ins.Instruction.decode (.CRV32 0) =
        .ok (.CRV32 0) (.I 0b0010011 8 0x0 0x02 0) := by
  decide

/-- Claim C2: evaluation of the jalr arm at rs1 = x6 holding 2^32, imm = 0,
rd = x1, advanced PC 0x1004.  The return address is written to rd, but the
`target & 0xFFFF_FFFE` mask clears bits 63:32 as well as bit 0: the next PC
is 0, not the 2^32 the claim's "only the low bit cleared" rule demands. -/
theorem jalr_upper_bits_truncated :
    Hart.execute_jalr jalrRegs 0x1004 1 6 0 = some (jalrRegs.set 1 0x1004, 0) ∧
      (0x100000000 : Nat) &&& 0xFFFFFFFFFFFFFFFE = 0x100000000 ∧
      (0 : Nat) ≠ 0x100000000 := by
  decide

/-- Claim C6: evaluation of the `.W` atomics arm for amoswap.w with rd = x5,
rs1 = x6 (address 0x100), rs2 = x7.  The old memory word lands in rd, but
the arm also overwrites the rs2 register with the old rd value: x7 becomes
0xBB although the claim requires every register other than rd to be
unchanged (x7 held 0xAA). -/
theorem amoswap_clobbers_rs2 :
    ((Hart.execute_amo_w amoRegs amoMem 0x01 5 6 7).map
        (fun r => (r.1.get? 7, r.1.get? 5, r.2 0x100))) =
      some (some 0xBB, some 0xCC, 0xAA) ∧
      (0xBB : Nat) ≠ 0xAA := by
  decide

/-- Claim C8: `Rom::read_double` reuses the byte at `addr + 3` for the four
upper byte lanes, so over identical contents it disagrees with
`Ram::read_double` (bytes 0,0,0,1,2,3,4,5 give 0x0101010101000000 from ROM
but 0x0504030201000000 from RAM), and it only bounds-checks
`addr..addr+3`: on a 4-byte vector the ROM read succeeds where the RAM read
faults. -/
theorem rom_read_double_mismatch :
    Rom.read_double [0, 0, 0, 1, 2, 3, 4, 5] 0 =
      .ok (1 <<< 24 + 1 <<< 32 + 1 <<< 40 + 1 <<< 48 + 1 <<< 56) ∧
    Ram.read_double [0, 0, 0, 1, 2, 3, 4, 5] 0 =
      .ok (1 <<< 24 + 2 <<< 32 + 3 <<< 40 + 4 <<< 48 + 5 <<< 56) ∧
    Rom.read_double [0, 0, 0, 1, 2, 3, 4, 5] 0 ≠
      Ram.read_double [0, 0, 0, 1, 2, 3, 4, 5] 0 ∧
    Rom.read_double [1, 2, 3, 4] 0 =
      .ok (1 + 2 <<< 8 + 3 <<< 16 + 4 <<< 24 + 4 <<< 32 + 4 <<< 40 + 4 <<< 48 +
        4 <<< 56) ∧
    Ram.read_double [1, 2, 3, 4] 0 = .error 0 := by
  decide

/-- Claim C3, counterexample: with mip = mie = 0x88 both the machine-software
bit (3) and the machine-timer bit (7) are pending and enabled, yet
`pending_interrupt` selects the machine-timer interrupt, not the
machine-software interrupt the claim's priority order requires. -/
theorem pending_interrupt_priority_counterexample :
    Clint.pending_interrupt 0x88 0x88 = some Clint.InterruptType.MTIP ∧
      Clint.pending_interrupt 0x88 0x88 ≠ some Clint.InterruptType.MSIP ∧
      Clint.interruptCause Clint.InterruptType.MTIP = 0x8000000000000007 := by
  decide

/-- Claim C7, counterexample: MVENDORID is constructed as 0, but a CSR-file
write is dispatched to `Csr::write_any`, so writing 5 and reading back gives
5, not the construction-time constant — writes are not ignored. -/
theorem csr_machine_info_counterexample :
    ((csr.Csr.new 0).write csr.MVENDORID 5).read csr.MVENDORID = 5 ∧
      (csr.Csr.new 0).read csr.MVENDORID = 0 ∧ (5 : Nat) ≠ 0 := by
  decide

/-- Claim C4, counterexample: in `plic0` source 1 is the unique enabled
pending source (priority 7, every threshold 0), yet a read of context 0's
claim register returns 0 — not the source id 1 — and leaves the source's
pending state untouched; the only state change is the context's claimed
flag. -/
theorem plic_claim_read_counterexample :
    (Plic.read_word plic0 0x200004).map
        (fun r => (r.1, (r.2.sources 1).interrupts, (r.2.sources 1).priority,
          (r.2.contexts 0).claimed)) =
      .ok (0, 1, 7, true) ∧ (0 : Nat) ≠ 1 := by
  decide

/-- Claim C5: evaluation of the QueueNotify processing on the claim's
scenario (IN header, 5-byte data buffer, 1-byte status buffer, disk sector
starting "Hello").  The data buffer does receive 0x48 0x65 0x6C 0x6C 0x6F,
but the status byte at 0x600 still holds its initial 0x55 — the device reads
rather than writes it (and from the data descriptor, not the status
descriptor) — and the used ring's idx at 0x302 is still 0, not 1; blk.rs
also contains no interrupt plumbing towards the PLIC at all. -/
theorem virtio_blk_status_not_written :
    ((virtio.BlkDevice.queue_notify blkMem0 blkDisk blkQueue).map
        (fun m => ([m 0x500, m 0x501, m 0x502, m 0x503, m 0x504], m 0x600,
          Mem.read_half m 0x302))) =
      some ([0x48, 0x65, 0x6C, 0x6C, 0x6F], 0x55, 0) ∧
      (0x55 : Nat) ≠ 0 ∧ (0 : Nat) ≠ 1 := by
  decide

set_option maxRecDepth 4000 in
/-- Exhaustive check of the arbitration order on mask-restricted values below
1024. -/
theorem pending_interrupt_chunk0 : ∀ r : Nat, r < 1024 →
    r &&& Clint.definedBits = r →
    Clint.pending_interrupt r r = Clint.prioritySelect r := by
  decide

set_option maxRecDepth 4000 in
/-- Exhaustive check of the arbitration order on mask-restricted values in
[1024, 2048). -/
theorem pending_interrupt_chunk1 : ∀ r : Nat, r < 1024 →
    (1024 + r) &&& Clint.definedBits = 1024 + r →
    Clint.pending_interrupt (1024 + r) (1024 + r) =
      Clint.prioritySelect (1024 + r) := by
  decide

set_option maxRecDepth 4000 in
/-- Exhaustive check of the arbitration order on mask-restricted values in
[2048, 3072). -/
theorem pending_interrupt_chunk2 : ∀ r : Nat, r < 1024 →
    (2048 + r) &&& Clint.definedBits = 2048 + r →
    Clint.pending_interrupt (2048 + r) (2048 + r) =
      Clint.prioritySelect (2048 + r) := by
  decide

set_option maxRecDepth 4000 in
/-- Exhaustive check of the arbitration order on mask-restricted values in
[3072, 4096). -/
theorem pending_interrupt_chunk3 : ∀ r : Nat, r < 1024 →
    (3072 + r) &&& Clint.definedBits = 3072 + r →
    Clint.pending_interrupt (3072 + r) (3072 + r) =
      Clint.prioritySelect (3072 + r) := by
  decide

/-- The arbitration order on every mask-restricted value below 4096. -/
theorem pending_interrupt_bounded (ip : Nat) (hlt : ip < 4096)
    (hmask : ip &&& Clint.definedBits = ip) :
    Clint.pending_interrupt ip ip = Clint.prioritySelect ip := by
  by_cases h1 : ip < 1024
  · exact pending_interrupt_chunk0 ip h1 hmask
  by_cases h2 : ip < 2048
  · obtain ⟨r, rfl⟩ : ∃ r, ip = 1024 + r := ⟨ip - 1024, by omega⟩
    exact pending_interrupt_chunk1 r (by omega) hmask
  by_cases h3 : ip < 3072
  · obtain ⟨r, rfl⟩ : ∃ r, ip = 2048 + r := ⟨ip - 2048, by omega⟩
    exact pending_interrupt_chunk2 r (by omega) hmask
  · obtain ⟨r, rfl⟩ : ∃ r, ip = 3072 + r := ⟨ip - 3072, by omega⟩
    exact pending_interrupt_chunk3 r (by omega) hmask

/-- Claim C3 (amended): when the pending-and-enabled mask is confined to the
nine bit positions the arbiter inspects, `pending_interrupt` selects the
cause with the highest set bit index — the effective priority order is
MEI, SEI, UEI, MTI, STI, UTI, MSI, SSI, USI, not the claimed
MEI, MSI, MTI, SEI, SSI, STI, UEI, USI, UTI. -/
theorem pending_interrupt_order (mip mie : Nat)
    (h : (mip &&& mie) &&& Clint.definedBits = mip &&& mie) :
    Clint.pending_interrupt mip mie = Clint.prioritySelect (mip &&& mie) := by
  have hle : mip &&& mie ≤ 3003 := by
    have h2 : (mip &&& mie) &&& Clint.definedBits ≤ Clint.definedBits :=
      Nat.and_le_right
    rw [h] at h2
    simpa [Clint.definedBits] using h2
  have heq : Clint.pending_interrupt mip mie =
      Clint.pending_interrupt (mip &&& mie) (mip &&& mie) := by
    simp only [Clint.pending_interrupt, Nat.and_self]
  rw [heq]
  exact pending_interrupt_bounded (mip &&& mie) (by omega) h

/-- Claim C3 witness: the amended order theorem applied at mip = mie = 0x88
(machine-software and machine-timer both pending and enabled). -/
theorem pending_interrupt_order_witness :
    Clint.pending_interrupt 0x88 0x88 = Clint.prioritySelect (0x88 &&& 0x88) :=
  pending_interrupt_order 0x88 0x88 (by decide)

/-- Claim C4 (amended): a read of a context's claim register (offset 4
within the 0x200000 region) marks that context's claimed flag and returns 0;
pending state is neither consulted nor cleared. -/
theorem plic_claim_read_amended (p : Plic.Plic) (ctx : Nat) (h : ctx ≤ 15870) :
    Plic.read_word p (0x200004 + 0x1000 * ctx) =
      .ok (0, Plic.claim_interrupt p ctx) := by
  unfold Plic.read_word
  split_ifs with h1 h2 h3 h4
  · exact absurd h1 (by omega)
  · exact absurd h2 (by omega)
  · rw [land_seven] at h3
    exact absurd h3 (by omega)
  · have hctx : (0x200004 + 0x1000 * ctx - 0x200004) / 0x1000 = ctx := by omega
    simp only [hctx]
  · exfalso
    apply h4
    refine ⟨by omega, by omega, ?_⟩
    rw [land_seven]
    omega

/-- Claim C4 witness: the amended claim-read theorem applied to the concrete
PLIC state `plic0` at context 0. -/
theorem plic_claim_read_amended_witness :
    Plic.read_word plic0 0x200004 = .ok (0, Plic.claim_interrupt plic0 0) :=
  plic_claim_read_amended plic0 0 (by decide)

/-- Claim C7 (amended): for MISA, MVENDORID, MARCHID, MIMPID and MHARTID the
CSR file dispatches writes to `Csr::write_any`, so a write is stored and a
subsequent read returns the written value (the construction-time constant
only survives until the first write). -/
theorem csr_machine_info_write_any (c : csr.Csr) (v num : Nat)
    (h : num = csr.MISA ∨ num = csr.MVENDORID ∨ num = csr.MARCHID ∨
      num = csr.MIMPID ∨ num = csr.MHARTID) :
    (c.write num v).read num = v := by
  have key : ∀ K : Nat,
      csr.CSR_MAP.find? (fun e => e.1 = K) =
        some (K, csr.CsrFn.read_any, csr.CsrWrFn.write_any) →
      (c.write K v).read K = v := by
    intro K hK
    unfold csr.Csr.read csr.Csr.write
    rw [hK]
    simp [upd]
  rcases h with rfl | rfl | rfl | rfl | rfl <;> exact key _ (by rfl)

/-- Claim C7 witness: the amended write-through theorem applied to a fresh
CSR file at MVENDORID with value 7. -/
theorem csr_machine_info_write_any_witness :
    ((csr.Csr.new 0).write csr.MVENDORID 7).read csr.MVENDORID = 7 :=
  csr_machine_info_write_any (csr.Csr.new 0) 7 csr.MVENDORID
    (Or.inr (Or.inl rfl))

/-- Claim C9: register x0 reads as zero regardless of writes.  Every
register mutation in hart.rs (instruction write-back, SBI, debug) goes
through `set_register`, which drops writes to register 0, so any sequence of
`set_register` calls started from a file with x0 = 0 leaves
`get_register 0` equal to 0. -/
theorem x0_reads_zero (ws : List (Nat × Nat)) :
    ∀ registers registers' : List Nat,
      registers.get? 0 = some 0 →
      Hart.apply_writes registers ws = some registers' →
      Hart.get_register registers' 0 = some 0 := by
  induction ws with
  | nil =>
    intro regs regs' h0 happ
    simp only [Hart.apply_writes, Option.some.injEq] at happ
    subst happ
    simpa [Hart.get_register] using h0
  | cons w ws ih =>
    intro regs regs' h0 happ
    rcases w with ⟨r, v⟩
    simp only [Hart.apply_writes] at happ
    cases hset : Hart.set_register regs r v with
    | none => rw [hset] at happ; exact absurd happ (by simp)
    | some regs1 =>
      rw [hset] at happ
      refine ih regs1 regs' ?_ happ
      unfold Hart.set_register at hset
      split at hset
      · cases hset
        exact h0
      · split at hset
        · rename_i hne hrange
          cases hset
          simp only [List.get?_eq_getElem?] at h0 ⊢
          rw [List.getElem?_set_ne (by omega)]
          exact h0
        · cases hset

/-- Claim C9 witness: the x0 invariant applied to the concrete write
sequence [(1, 5), (0, 9)] from the reset register file. -/
theorem x0_reads_zero_witness :
    Hart.get_register ((List.replicate 32 0).set 1 5) 0 = some 0 :=
  x0_reads_zero [(1, 5), (0, 9)] (List.replicate 32 0)
    ((List.replicate 32 0).set 1 5) (by decide) (by decide)

/-- Claim C10: decoding a compressed parcel is total under the fetch
precondition.  For every 16-bit parcel whose low two bits are not 0b11,
`decode_16` returns a record or a decoding error and never reaches its panic
branch; and the fetch path only constructs compressed parcels whose low two
bits are not 0b11 (the halfword re-read shares its low byte with the word
probe). -/
theorem decode16_total_under_fetch :
    (∀ p : Nat, p < 65536 → p % 4 ≠ 3 → Ins.decode_16 p ≠ .panicked) ∧
      (∀ (mem : Nat → Nat) (pc hw pc' : Nat),
        Hart.fetch_instruction mem pc = (.CRV32 hw, pc') → hw % 4 ≠ 3) := by
  constructor
  · intro p _ h3
    unfold Ins.decode_16
    simp only [land_three]
    have h4 : p % 4 = 0 ∨ p % 4 = 1 ∨ p % 4 = 2 := by omega
    rcases h4 with h | h | h <;> simp only [h] <;> norm_num <;>
      (repeat' split) <;> simp
  · intro mem pc hw pc' hfetch
    unfold Hart.fetch_instruction at hfetch
    simp only [land_three] at hfetch
    split at hfetch
    · simp at hfetch
    · rename_i hcond
      have hhw : hw = Mem.read_half mem pc := by
        injection hfetch with hfst hsnd
        injection hfst with hh
        exact hh.symm
      subst hhw
      simp only [Mem.read_word, Mem.read_half, Mem.read_byte] at hcond ⊢
      omega

/-- Claim C10 witness: the totality theorem applied at the parcel 0x4601
(low bits 01) and at a fetch from all-0x13 memory. -/
theorem decode16_total_under_fetch_witness :
    Ins.decode_16 0x4601 ≠ .panicked :=
  decode16_total_under_fetch.1 0x4601 (by decide) (by decide)
